import Mathlib

/-!
Shallow embedding of the cards_trade front-end handlers.

The repository contains React components in two families:

* `CardGenerator` (src/client/src/pages/CardGenerator.tsx and the first
  component of src/unnamed/part_002): spreadsheet selection, upload and
  card generation, logo upload without client-side validation, and a
  socket with "connect" / "progress" / "error" handlers.
* `LogoManager` (src/unnamed/part_000 and src/unnamed/part_001): logo
  selection with type and size validation, listing with the
  "blank.png" sentinel filtered out, and (in part_001 only) a
  confirm-replace guard for duplicate names.

Each event handler is embedded as a pure function from the component
state (the `useState` fields) and the handler's inputs to the new state
together with the ordered list of network effects the handler issues
(fetch requests, tRPC mutation calls, socket emissions).  Asynchronous
results (fetch `response.ok`, the awaited mutation result or thrown
error) are passed in as explicit parameters.
-/

namespace CardsTrade

/-- The JavaScript `String.prototype.endsWith` check used by the
spreadsheet handlers (`selectedFile.name.endsWith(".xlsx")`): `s` ends
with the character sequence `post`.  Stated over the character lists so
the kernel can evaluate it on concrete file names. -/
def strEndsWith (s post : String) : Bool :=
  post.data.isSuffixOf s.data

/-- A file as exposed by the browser file input: declared name, byte
size, and declared MIME type (`File.name`, `File.size`, `File.type`). -/
structure BrowserFile where
  name : String
  size : Nat
  type : String
deriving Repr, DecidableEq

/-- `interface ProgressData` from CardGenerator.tsx (lines 7-12). -/
structure ProgressData where
  total : Nat
  processed : Nat
  percentage : Nat
  currentCard : String
deriving Repr, DecidableEq

/-- The result object returned by the awaited
`generateCardsMutation.mutateAsync` call (`result.success`,
`result.zipPath`). -/
structure GenerateResult where
  success : Bool
  zipPath : String
deriving Repr, DecidableEq

/-- Network effects a handler can issue, in program order: the
spreadsheet upload POST to /api/upload, the logo upload POST to
/api/upload-logo, the tRPC card.generateCards mutation call, and the
socket.emit of a "join" registration. -/
inductive Effect where
  | uploadSpreadsheetRequest (f : BrowserFile)
  | uploadLogoRequest (logo : BrowserFile)
  | generateCardsCall (filePath : String) (sessionId : String)
  | joinEmit (sessionId : String)
deriving Repr, DecidableEq

/-- The `useState` fields of the CardGenerator component
(src/client/src/pages/CardGenerator.tsx lines 15-24 and
src/unnamed/part_002 lines 17-26).  `sessionId` is created once by the
`useState` initializer and has no setter, so it is an immutable field
here; every embedded handler must preserve it. -/
structure CGState where
  file : Option BrowserFile
  logoFile : Option BrowserFile
  logoMessage : Option String
  isProcessing : Bool
  progress : Option ProgressData
  zipPath : Option String
  error : Option String
  sessionId : String
deriving Repr, DecidableEq

/-- `handleFileSelect` of src/unnamed/part_002 (lines 537-554), the
spreadsheet file-selection validator; `handleFileChange` of the same
file (lines 82-100) is the same logic reading the file from the input
event.  Extension check first, then the 10 MiB size check, then the
file is stored and error/zipPath/progress are reset. -/
def handleFileSelect (s : CGState) (selectedFile : Option BrowserFile) :
    CGState × List Effect :=
  match selectedFile with
  | none => (s, [])
  | some f =>
    if !(strEndsWith f.name ".xlsx") then
      ({ s with error := some "Por favor, selecione um arquivo .xlsx válido" }, [])
    else if f.size > 10 * 1024 * 1024 then
      ({ s with error := some "O arquivo não pode exceder 10MB" }, [])
    else
      ({ s with file := some f, error := none, zipPath := none, progress := none }, [])

/-- `handleFileChange` of src/client/src/pages/CardGenerator.tsx
(lines 80-93): same extension check but no size check in this
variant. -/
def handleFileChange (s : CGState) (selectedFile : Option BrowserFile) :
    CGState × List Effect :=
  match selectedFile with
  | none => (s, [])
  | some f =>
    if !(strEndsWith f.name ".xlsx") then
      ({ s with error := some "Selecione um arquivo .xlsx válido" }, [])
    else
      ({ s with file := some f, error := none, zipPath := none, progress := none }, [])

/-- `handleLogoUpload` of src/unnamed/part_002 (lines 58-80): if a logo
file is selected it is POSTed to /api/upload-logo with no type or size
validation; `responseOk` is the awaited `response.ok`. -/
def handleLogoUpload (s : CGState) (responseOk : Bool) : CGState × List Effect :=
  match s.logoFile with
  | none => (s, [])
  | some logo =>
    let s1 := { s with logoMessage := none, error := none }
    if responseOk then
      ({ s1 with logoMessage := some "Logo enviada com sucesso.", logoFile := none },
        [Effect.uploadLogoRequest logo])
    else
      ({ s1 with error := some "Erro ao enviar logo." }, [Effect.uploadLogoRequest logo])

/-- `handleUpload` of src/unnamed/part_002 (lines 102-141): guards on a
selected file, resets error/progress/zipPath, POSTs the file, awaits
the generateCards mutation, and records `result.zipPath` exactly when
`result.success`; any thrown error is caught and recorded via
`setError`, and `finally` clears `isProcessing`.  `uploadOk` is the
awaited `uploadResponse.ok`, `filePath` the parsed JSON body, and
`genResult` the awaited mutation outcome (`Except.error msg` models a
thrown `Error` whose message is `msg`). -/
def handleUpload (s : CGState) (uploadOk : Bool) (filePath : String)
    (genResult : Except String GenerateResult) : CGState × List Effect :=
  match s.file with
  | none => ({ s with error := some "Por favor, selecione um arquivo" }, [])
  | some f =>
    let s1 := { s with isProcessing := true, error := none, progress := none,
                       zipPath := none }
    if !uploadOk then
      ({ s1 with error := some "Erro ao fazer upload do arquivo", isProcessing := false },
        [Effect.uploadSpreadsheetRequest f])
    else
      match genResult with
      | Except.error msg =>
        ({ s1 with error := some msg, isProcessing := false },
          [Effect.uploadSpreadsheetRequest f, Effect.generateCardsCall filePath s.sessionId])
      | Except.ok result =>
        let s2 := if result.success then { s1 with zipPath := some result.zipPath } else s1
        ({ s2 with isProcessing := false },
          [Effect.uploadSpreadsheetRequest f, Effect.generateCardsCall filePath s.sessionId])

/-- The socket `connect` handler (part_002 lines 38-40, CardGenerator.tsx
lines 31-33): on every connect event, including reconnections, it emits
exactly one "join" carrying the component's session id. -/
def onConnect (s : CGState) : List Effect :=
  [Effect.joinEmit s.sessionId]

/-- The socket `progress` handler (part_002 lines 42-44): stores the
delivered snapshot. -/
def onProgressEvent (s : CGState) (data : ProgressData) : CGState :=
  { s with progress := some data }

/-- The socket `error` handler (part_002 lines 46-49, CardGenerator.tsx
lines 39-42): records the delivered message and stops processing. -/
def onErrorEvent (s : CGState) (message : String) : CGState :=
  { s with error := some message, isProcessing := false }

/-- A listed logo asset (`interface Logo` of part_000/part_001 lines
7-10). -/
structure Logo where
  name : String
  path : String
deriving Repr, DecidableEq

/-- The MIME types the LogoManager selection handlers accept
(part_000 line 35, part_001 line 35). -/
def allowedLogoTypes : List String :=
  ["image/png", "image/jpeg", "image/jpg"]

/-- The `useState` fields of the part_001 LogoManager (lines 13-19). -/
structure LM1State where
  logos : List Logo
  selectedFile : Option BrowserFile
  error : Option String
  success : Option String
  isLoading : Bool
  confirmDelete : Option String
  confirmReplace : Option (BrowserFile × String)
deriving Repr, DecidableEq

/-- `handleFileSelect` of src/unnamed/part_001 (lines 31-57): type check,
5 MiB size check, then store the selection; if the name is already in
the listed logos it only records a pending confirm-replace, otherwise
it calls `uploadLogo` immediately (the upload request effect). -/
def LM1.handleFileSelect (s : LM1State) (file : Option BrowserFile) :
    LM1State × List Effect :=
  match file with
  | none => (s, [])
  | some f =>
    if !(allowedLogoTypes.contains f.type) then
      ({ s with error := some "Apenas arquivos PNG, JPG e JPEG são permitidos" }, [])
    else if f.size > 5 * 1024 * 1024 then
      ({ s with error := some "O arquivo não pode exceder 5MB" }, [])
    else
      let s1 := { s with selectedFile := some f, error := none, success := none }
      let logoName := f.name
      let alreadyExists := s.logos.any (fun logo => logo.name == logoName)
      if alreadyExists then
        ({ s1 with confirmReplace := some (f, logoName) }, [])
      else
        (s1, [Effect.uploadLogoRequest f])

/-- The `useState` fields of the part_000 LogoManager (lines 15-19);
this variant has no selectedFile/confirmReplace state. -/
structure LM0State where
  logos : List Logo
  error : Option String
  success : Option String
  isLoading : Bool
deriving Repr, DecidableEq

/-- `handleFileSelect` of src/unnamed/part_000 (lines 30-66): type check
and 5 MiB size check, then the file is POSTed to /api/upload-logo
unconditionally — there is no duplicate-name check in this variant.
`responseOk` is the awaited `response.ok`. -/
def LM0.handleFileSelect (s : LM0State) (file : Option BrowserFile)
    (responseOk : Bool) : LM0State × List Effect :=
  match file with
  | none => (s, [])
  | some f =>
    if !(allowedLogoTypes.contains f.type) then
      ({ s with error := some "Apenas PNG, JPG e JPEG são permitidos" }, [])
    else if f.size > 5 * 1024 * 1024 then
      ({ s with error := some "O arquivo não pode exceder 5MB" }, [])
    else
      let s1 := { s with isLoading := true, error := none, success := none }
      if responseOk then
        ({ s1 with
             success := some ("Logo \"" ++ f.name ++ "\" enviada com sucesso!"),
             isLoading := false },
          [Effect.uploadLogoRequest f])
      else
        ({ s1 with error := some "Erro ao enviar logo", isLoading := false },
          [Effect.uploadLogoRequest f])

/-- The list of logo entries actually rendered by both LogoManager
variants (part_000 lines 167-173, part_001 lines 166-170): the stored
list with the "blank.png" sentinel filtered out. -/
def displayedLogos (logos : List Logo) : List Logo :=
  logos.filter (fun logo => logo.name != "blank.png")

/-- The img src used for a rendered logo entry, and the fallback the
part_000 onError handler swaps in when loading fails (part_000 lines
178-183). -/
def renderedLogoSrc (logo : Logo) (loadFailed : Bool) : String :=
  if loadFailed then "/logos/blank.png" else "/logos/" ++ logo.name


/-! ## Concrete states and files used by witnesses and counterexamples -/

/-- A fresh CardGenerator state, as after the initial `useState` calls. -/
def initialCGState : CGState :=
  { file := none, logoFile := none, logoMessage := none, isProcessing := false,
    progress := none, zipPath := none, error := none, sessionId := "session_0" }

/-- An .xlsx file of exactly the 10 MiB ceiling. -/
def xlsxAtCap : BrowserFile :=
  { name := "planilha.xlsx", size := 10 * 1024 * 1024,
    type := "application/vnd.openxmlformats-officedocument.spreadsheetml.sheet" }

/-- An .xlsx file one byte over the 10 MiB ceiling. -/
def xlsxOverCap : BrowserFile :=
  { name := "planilha.xlsx", size := 10 * 1024 * 1024 + 1,
    type := "application/vnd.openxmlformats-officedocument.spreadsheetml.sheet" }

/-- A small file whose name does not end in ".xlsx". -/
def csvFile : BrowserFile :=
  { name := "planilha.csv", size := 1024, type := "text/csv" }

/-- A non-image, oversized file offered as a logo. -/
def badLogoFile : BrowserFile :=
  { name := "notas.txt", size := 6 * 1024 * 1024, type := "text/plain" }

/-- A CardGenerator state with the bad logo file selected for upload. -/
def badLogoCGState : CGState :=
  { initialCGState with logoFile := some badLogoFile }

/-- A small valid PNG logo file. -/
def pngLogoFile : BrowserFile :=
  { name := "acme.png", size := 2048, type := "image/png" }

/-- An image logo file one byte over the 5 MiB ceiling. -/
def bigLogoFile : BrowserFile :=
  { name := "grande.png", size := 5 * 1024 * 1024 + 1, type := "image/png" }

/-- An already-listed logo asset named like `pngLogoFile`. -/
def acmeLogo : Logo := { name := "acme.png", path := "/logos/acme.png" }

/-- A part_000 LogoManager state already listing `acmeLogo`. -/
def lm0StateWithAcme : LM0State :=
  { logos := [acmeLogo], error := none, success := none, isLoading := false }

/-- A part_001 LogoManager state already listing `acmeLogo`. -/
def lm1StateWithAcme : LM1State :=
  { logos := [acmeLogo], selectedFile := none, error := none, success := none,
    isLoading := false, confirmDelete := none, confirmReplace := none }

/-- A CardGenerator state holding leftovers of a previous job. -/
def staleCGState : CGState :=
  { initialCGState with
      file := some csvFile,
      zipPath := some "/tmp/cards_old.zip",
      progress := some { total := 3, processed := 3, percentage := 100, currentCard := "c3" },
      error := some "erro antigo" }

/-- The sentinel placeholder asset. -/
def blankLogo : Logo := { name := "blank.png", path := "/logos/blank.png" }

/-- A successful generateCards result. -/
def okResult : GenerateResult := { success := true, zipPath := "/tmp/cards.zip" }

/-! ## Claims -/

/-- Claim C1: for a selected spreadsheet file with the accepted
extension, the size check of part_002's `handleFileSelect` accepts a
file of exactly 10 MiB (the file is stored, no error) and rejects a
file one byte over with the size error message, and in both cases the
handler issues no network request at all (so rejection happens before
any upload request). -/
theorem fileSelect_size_ceiling_boundary (s : CGState) (f g : BrowserFile)
    (hf : strEndsWith f.name ".xlsx" = true) (hfs : f.size = 10 * 1024 * 1024)
    (hg : strEndsWith g.name ".xlsx" = true) (hgs : g.size = 10 * 1024 * 1024 + 1) :
    (handleFileSelect s (some f)).1.file = some f
    ∧ (handleFileSelect s (some f)).1.error = none
    ∧ (handleFileSelect s (some f)).2 = []
    ∧ (handleFileSelect s (some g)).1.error = some "O arquivo não pode exceder 10MB"
    ∧ (handleFileSelect s (some g)).1.file = s.file
    ∧ (handleFileSelect s (some g)).2 = [] := by
  simp [handleFileSelect, hf, hg, hfs, hgs]

/-- Witness for `fileSelect_size_ceiling_boundary` at concrete files of
sizes 10485760 and 10485761 bytes. -/
theorem fileSelect_size_ceiling_boundary_witness :
    (handleFileSelect initialCGState (some xlsxAtCap)).1.file = some xlsxAtCap
    ∧ (handleFileSelect initialCGState (some xlsxAtCap)).1.error = none
    ∧ (handleFileSelect initialCGState (some xlsxAtCap)).2 = []
    ∧ (handleFileSelect initialCGState (some xlsxOverCap)).1.error
        = some "O arquivo não pode exceder 10MB"
    ∧ (handleFileSelect initialCGState (some xlsxOverCap)).1.file = initialCGState.file
    ∧ (handleFileSelect initialCGState (some xlsxOverCap)).2 = [] :=
  fileSelect_size_ceiling_boundary initialCGState xlsxAtCap xlsxOverCap
    (by decide) rfl (by decide) rfl

/-- Claim C2: a selected spreadsheet file whose name does not end in
".xlsx" is rejected with the format error by both file-selection
handlers (CardGenerator.tsx `handleFileChange` and part_002
`handleFileSelect`); the stored file is unchanged and no upload or
generation effect is issued. -/
theorem fileSelect_extension_rejection (s : CGState) (f : BrowserFile)
    (hf : strEndsWith f.name ".xlsx" = false) :
    (handleFileChange s (some f)).1.error = some "Selecione um arquivo .xlsx válido"
    ∧ (handleFileChange s (some f)).1.file = s.file
    ∧ (handleFileChange s (some f)).2 = []
    ∧ (handleFileSelect s (some f)).1.error
        = some "Por favor, selecione um arquivo .xlsx válido"
    ∧ (handleFileSelect s (some f)).1.file = s.file
    ∧ (handleFileSelect s (some f)).2 = [] := by
  simp [handleFileChange, handleFileSelect, hf]

/-- Witness for `fileSelect_extension_rejection` at a concrete .csv
file. -/
theorem fileSelect_extension_rejection_witness :
    (handleFileChange initialCGState (some csvFile)).1.error
        = some "Selecione um arquivo .xlsx válido"
    ∧ (handleFileChange initialCGState (some csvFile)).1.file = initialCGState.file
    ∧ (handleFileChange initialCGState (some csvFile)).2 = []
    ∧ (handleFileSelect initialCGState (some csvFile)).1.error
        = some "Por favor, selecione um arquivo .xlsx válido"
    ∧ (handleFileSelect initialCGState (some csvFile)).1.file = initialCGState.file
    ∧ (handleFileSelect initialCGState (some csvFile)).2 = [] :=
  fileSelect_extension_rejection initialCGState csvFile (by decide)

/-- Claim C7: the socket "error" handler records the delivered message
as the current error and clears the processing flag, for every state
and message. -/
theorem errorEvent_terminal (s : CGState) (m : String) :
    (onErrorEvent s m).error = some m ∧ (onErrorEvent s m).isProcessing = false := by
  simp [onErrorEvent]

/-- Claim C9: a spreadsheet selection that fails validation in part_002
`handleFileSelect` (wrong extension or over the 10 MiB ceiling) changes
only the error message: file, zipPath, progress, and every other state
field are unchanged, and no effect is issued. -/
theorem failedSelection_frame (s : CGState) (f : BrowserFile)
    (h : strEndsWith f.name ".xlsx" = false ∨ f.size > 10 * 1024 * 1024) :
    (handleFileSelect s (some f)).1.file = s.file
    ∧ (handleFileSelect s (some f)).1.zipPath = s.zipPath
    ∧ (handleFileSelect s (some f)).1.progress = s.progress
    ∧ (handleFileSelect s (some f)).1.isProcessing = s.isProcessing
    ∧ (handleFileSelect s (some f)).1.logoFile = s.logoFile
    ∧ (handleFileSelect s (some f)).1.logoMessage = s.logoMessage
    ∧ (handleFileSelect s (some f)).1.sessionId = s.sessionId
    ∧ (handleFileSelect s (some f)).2 = [] := by
  rcases h with h | h
  · simp [handleFileSelect, h]
  · cases he : strEndsWith f.name ".xlsx" <;> simp [handleFileSelect, he, h]

/-- Witness for `failedSelection_frame` at the oversized .xlsx file. -/
theorem failedSelection_frame_witness :
    (handleFileSelect initialCGState (some xlsxOverCap)).1.file = initialCGState.file
    ∧ (handleFileSelect initialCGState (some xlsxOverCap)).1.zipPath = initialCGState.zipPath
    ∧ (handleFileSelect initialCGState (some xlsxOverCap)).1.progress = initialCGState.progress
    ∧ (handleFileSelect initialCGState (some xlsxOverCap)).1.isProcessing = initialCGState.isProcessing
    ∧ (handleFileSelect initialCGState (some xlsxOverCap)).1.logoFile = initialCGState.logoFile
    ∧ (handleFileSelect initialCGState (some xlsxOverCap)).1.logoMessage = initialCGState.logoMessage
    ∧ (handleFileSelect initialCGState (some xlsxOverCap)).1.sessionId = initialCGState.sessionId
    ∧ (handleFileSelect initialCGState (some xlsxOverCap)).2 = [] :=
  failedSelection_frame initialCGState xlsxOverCap (Or.inr (by decide))

/-- Claim C10: a spreadsheet selection that passes validation in
part_002 `handleFileSelect` stores the new file and resets error,
zipPath and progress to null. -/
theorem acceptedSelection_resets (s : CGState) (f : BrowserFile)
    (he : strEndsWith f.name ".xlsx" = true) (hs : f.size ≤ 10 * 1024 * 1024) :
    (handleFileSelect s (some f)).1.file = some f
    ∧ (handleFileSelect s (some f)).1.error = none
    ∧ (handleFileSelect s (some f)).1.zipPath = none
    ∧ (handleFileSelect s (some f)).1.progress = none := by
  have hns : ¬ (f.size > 10 * 1024 * 1024) := by omega
  simp [handleFileSelect, he, hns]

/-- Witness for `acceptedSelection_resets` at the 10 MiB .xlsx file, on
a state carrying stale zipPath, progress and error. -/
theorem acceptedSelection_resets_witness :
    (handleFileSelect staleCGState (some xlsxAtCap)).1.file = some xlsxAtCap
    ∧ (handleFileSelect staleCGState (some xlsxAtCap)).1.error = none
    ∧ (handleFileSelect staleCGState (some xlsxAtCap)).1.zipPath = none
    ∧ (handleFileSelect staleCGState (some xlsxAtCap)).1.progress = none :=
  acceptedSelection_resets staleCGState xlsxAtCap (by decide) (by decide)

/-- Claim C4: every logo entry in the rendered list has a name
different from "blank.png", and the onError fallback swaps a failed
logo image to the "/logos/blank.png" sentinel path. -/
theorem blankSentinel_excluded_and_fallback (logos : List Logo) (l other : Logo)
    (h : l ∈ displayedLogos logos) :
    l.name ≠ "blank.png"
    ∧ renderedLogoSrc other true = "/logos/blank.png" := by
  refine ⟨?_, rfl⟩
  simp only [displayedLogos, List.mem_filter, bne_iff_ne, ne_eq] at h
  exact h.2

/-- Witness for `blankSentinel_excluded_and_fallback` on a list holding
both the sentinel and a regular logo. -/
theorem blankSentinel_excluded_and_fallback_witness :
    acmeLogo.name ≠ "blank.png"
    ∧ renderedLogoSrc blankLogo true = "/logos/blank.png" :=
  blankSentinel_excluded_and_fallback [blankLogo, acmeLogo] acmeLogo blankLogo
    (by decide)

/-- Claim C8: with a file selected, part_002 `handleUpload` records the
archive location exactly when the awaited generateCards result reports
success: on a successful await the final zipPath is `result.zipPath` if
`result.success` and null otherwise with no error recorded, while on a
failed upload response or a thrown mutation error zipPath ends null and
the error message is recorded. -/
theorem handleUpload_records_result (s : CGState) (f : BrowserFile)
    (hf : s.file = some f) (fp msg : String) (gr : GenerateResult) :
    (handleUpload s true fp (Except.ok gr)).1.zipPath
        = (if gr.success then some gr.zipPath else none)
    ∧ (handleUpload s true fp (Except.ok gr)).1.error = none
    ∧ (handleUpload s true fp (Except.ok gr)).1.isProcessing = false
    ∧ (handleUpload s true fp (Except.error msg)).1.zipPath = none
    ∧ (handleUpload s true fp (Except.error msg)).1.error = some msg
    ∧ (handleUpload s false fp (Except.ok gr)).1.zipPath = none
    ∧ (handleUpload s false fp (Except.ok gr)).1.error
        = some "Erro ao fazer upload do arquivo" := by
  refine ⟨?_, ?_, ?_, ?_, ?_, ?_, ?_⟩ <;>
    simp [handleUpload, hf] <;> split <;> simp

/-- Witness for `handleUpload_records_result` on the stale state (whose
file is the concrete csv already stored) with a successful result. -/
theorem handleUpload_records_result_witness :
    (handleUpload staleCGState true "/tmp/up.xlsx" (Except.ok okResult)).1.zipPath
        = (if okResult.success then some okResult.zipPath else none)
    ∧ (handleUpload staleCGState true "/tmp/up.xlsx" (Except.ok okResult)).1.error = none
    ∧ (handleUpload staleCGState true "/tmp/up.xlsx" (Except.ok okResult)).1.isProcessing = false
    ∧ (handleUpload staleCGState true "/tmp/up.xlsx" (Except.error "falha")).1.zipPath = none
    ∧ (handleUpload staleCGState true "/tmp/up.xlsx" (Except.error "falha")).1.error = some "falha"
    ∧ (handleUpload staleCGState false "/tmp/up.xlsx" (Except.ok okResult)).1.zipPath = none
    ∧ (handleUpload staleCGState false "/tmp/up.xlsx" (Except.ok okResult)).1.error
        = some "Erro ao fazer upload do arquivo" :=
  handleUpload_records_result staleCGState csvFile rfl "/tmp/up.xlsx" "falha" okResult

/-- Claim C6: the session id is a fixed token of the component: the
connect handler emits exactly one "join" carrying it (on the initial
connection and on every reconnection), every handler preserves it, and
with a file selected the generateCards call in the `handleUpload`
effect trace carries that same token. -/
theorem session_identity (s : CGState) (sel : Option BrowserFile) (ok : Bool)
    (fp m : String) (d : ProgressData) (r : Except String GenerateResult)
    (f : BrowserFile) (gr : GenerateResult) (hf : s.file = some f) :
    onConnect s = [Effect.joinEmit s.sessionId]
    ∧ (handleFileSelect s sel).1.sessionId = s.sessionId
    ∧ (handleFileChange s sel).1.sessionId = s.sessionId
    ∧ (handleLogoUpload s ok).1.sessionId = s.sessionId
    ∧ (handleUpload s ok fp r).1.sessionId = s.sessionId
    ∧ (onProgressEvent s d).sessionId = s.sessionId
    ∧ (onErrorEvent s m).sessionId = s.sessionId
    ∧ (handleUpload s true fp (Except.ok gr)).2
        = [Effect.uploadSpreadsheetRequest f, Effect.generateCardsCall fp s.sessionId] := by
  refine ⟨rfl, ?_, ?_, ?_, ?_, rfl, rfl, ?_⟩
  · cases sel with
    | none => rfl
    | some fsel =>
      simp only [handleFileSelect]
      split
      · rfl
      · split <;> rfl
  · cases sel with
    | none => rfl
    | some fsel =>
      simp only [handleFileChange]
      split <;> rfl
  · cases hl : s.logoFile <;> simp [handleLogoUpload, hl] <;> split <;> rfl
  · cases ok <;> cases r <;> simp [handleUpload, hf] <;> split <;> rfl
  · simp [handleUpload, hf]

/-- Witness for `session_identity` on the stale state (file already
selected), with concrete handler inputs. -/
theorem session_identity_witness :
    onConnect staleCGState = [Effect.joinEmit staleCGState.sessionId]
    ∧ (handleFileSelect staleCGState (some xlsxAtCap)).1.sessionId = staleCGState.sessionId
    ∧ (handleFileChange staleCGState (some xlsxAtCap)).1.sessionId = staleCGState.sessionId
    ∧ (handleLogoUpload staleCGState true).1.sessionId = staleCGState.sessionId
    ∧ (handleUpload staleCGState true "/tmp/up.xlsx" (Except.ok okResult)).1.sessionId
        = staleCGState.sessionId
    ∧ (onProgressEvent staleCGState
        { total := 1, processed := 0, percentage := 0, currentCard := "c1" }).sessionId
        = staleCGState.sessionId
    ∧ (onErrorEvent staleCGState "falha").sessionId = staleCGState.sessionId
    ∧ (handleUpload staleCGState true "/tmp/up.xlsx" (Except.ok okResult)).2
        = [Effect.uploadSpreadsheetRequest csvFile,
           Effect.generateCardsCall "/tmp/up.xlsx" staleCGState.sessionId] :=
  session_identity staleCGState (some xlsxAtCap) true "/tmp/up.xlsx" "falha"
    { total := 1, processed := 0, percentage := 0, currentCard := "c1" }
    (Except.ok okResult) csvFile okResult rfl

/-- Claim C3 counterexample: in the CardGenerator logo upload path
(part_002 `handleLogoUpload`), a selected logo whose declared type
"text/plain" is outside the allowed image set and whose size exceeds
5 MiB is not rejected at all: the upload request is sent and no error
is recorded, refuting "for every logo upload path ... rejected ...
before any upload request is sent". -/
theorem logoUpload_no_validation_counterexample :
    allowedLogoTypes.contains badLogoFile.type = false
    ∧ 5 * 1024 * 1024 < badLogoFile.size
    ∧ (handleLogoUpload badLogoCGState true).2 = [Effect.uploadLogoRequest badLogoFile]
    ∧ (handleLogoUpload badLogoCGState true).1.error = none := by
  refine ⟨by decide, by decide, ?_, ?_⟩ <;> rfl

/-- Claim C3 amended: in both LogoManager file-selection handlers
(part_000 and part_001), a file whose declared type is outside
{image/png, image/jpeg, image/jpg} is rejected with the format error
and a conforming file over 5 MiB with the size error, in each case with
no upload request issued. -/
theorem logoManager_validation (s1 : LM1State) (s0 : LM0State)
    (f g : BrowserFile) (ok : Bool)
    (hft : allowedLogoTypes.contains f.type = false)
    (hgt : allowedLogoTypes.contains g.type = true)
    (hgs : g.size > 5 * 1024 * 1024) :
    (LM1.handleFileSelect s1 (some f)).1.error
        = some "Apenas arquivos PNG, JPG e JPEG são permitidos"
    ∧ (LM1.handleFileSelect s1 (some f)).2 = []
    ∧ (LM1.handleFileSelect s1 (some g)).1.error = some "O arquivo não pode exceder 5MB"
    ∧ (LM1.handleFileSelect s1 (some g)).2 = []
    ∧ (LM0.handleFileSelect s0 (some f) ok).1.error
        = some "Apenas PNG, JPG e JPEG são permitidos"
    ∧ (LM0.handleFileSelect s0 (some f) ok).2 = []
    ∧ (LM0.handleFileSelect s0 (some g) ok).1.error = some "O arquivo não pode exceder 5MB"
    ∧ (LM0.handleFileSelect s0 (some g) ok).2 = [] := by
  have hft2 : f.type ∉ allowedLogoTypes := by simpa using hft
  have hgt2 : g.type ∈ allowedLogoTypes := by simpa using hgt
  simp [LM1.handleFileSelect, LM0.handleFileSelect, hft2, hgt2, hgs]

/-- Witness for `logoManager_validation` with the text/plain file and
the oversized PNG. -/
theorem logoManager_validation_witness :
    (LM1.handleFileSelect lm1StateWithAcme (some badLogoFile)).1.error
        = some "Apenas arquivos PNG, JPG e JPEG são permitidos"
    ∧ (LM1.handleFileSelect lm1StateWithAcme (some badLogoFile)).2 = []
    ∧ (LM1.handleFileSelect lm1StateWithAcme (some bigLogoFile)).1.error
        = some "O arquivo não pode exceder 5MB"
    ∧ (LM1.handleFileSelect lm1StateWithAcme (some bigLogoFile)).2 = []
    ∧ (LM0.handleFileSelect lm0StateWithAcme (some badLogoFile) true).1.error
        = some "Apenas PNG, JPG e JPEG são permitidos"
    ∧ (LM0.handleFileSelect lm0StateWithAcme (some badLogoFile) true).2 = []
    ∧ (LM0.handleFileSelect lm0StateWithAcme (some bigLogoFile) true).1.error
        = some "O arquivo não pode exceder 5MB"
    ∧ (LM0.handleFileSelect lm0StateWithAcme (some bigLogoFile) true).2 = [] :=
  logoManager_validation lm1StateWithAcme lm0StateWithAcme badLogoFile bigLogoFile
    true (by decide) (by decide) (by decide)

/-- Claim C5 counterexample: the part_000 LogoManager `handleFileSelect`
uploads a valid logo immediately even when its name equals an
already-listed asset ("acme.png" is listed and the selected file has
that very name), refuting "for every logo upload whose file name equals
the name of an already-listed logo asset, the upload is not performed
immediately". -/
theorem duplicateName_direct_upload_counterexample :
    (lm0StateWithAcme.logos.any (fun logo => logo.name == pngLogoFile.name)) = true
    ∧ (LM0.handleFileSelect lm0StateWithAcme (some pngLogoFile) true).2
        = [Effect.uploadLogoRequest pngLogoFile] := by
  refine ⟨by decide, ?_⟩
  rfl

/-- Claim C5 amended: in the part_001 LogoManager `handleFileSelect`, a
validated file whose name matches a listed logo only records the
pending confirm-replace request and issues no upload, while a validated
file with a fresh name is uploaded directly. -/
theorem confirmReplace_on_duplicate (s : LM1State) (f : BrowserFile)
    (ht : allowedLogoTypes.contains f.type = true)
    (hs : f.size ≤ 5 * 1024 * 1024) :
    (LM1.handleFileSelect s (some f)).2
        = (if s.logos.any (fun logo => logo.name == f.name) then []
           else [Effect.uploadLogoRequest f])
    ∧ (LM1.handleFileSelect s (some f)).1.confirmReplace
        = (if s.logos.any (fun logo => logo.name == f.name) then some (f, f.name)
           else s.confirmReplace) := by
  have hns : ¬ (f.size > 5 * 1024 * 1024) := by omega
  have ht2 : f.type ∈ allowedLogoTypes := by simpa using ht
  cases hdup : s.logos.any (fun logo => logo.name == f.name) with
  | false =>
    have hd : ¬ ∃ x ∈ s.logos, x.name = f.name := by simpa using hdup
    simp [LM1.handleFileSelect, ht2, hns, hd, hdup]
  | true =>
    have hd : ∃ x ∈ s.logos, x.name = f.name := by simpa using hdup
    simp [LM1.handleFileSelect, ht2, hns, hd, hdup]

/-- Witness for `confirmReplace_on_duplicate` selecting the PNG whose
name duplicates the listed "acme.png". -/
theorem confirmReplace_on_duplicate_witness :
    (LM1.handleFileSelect lm1StateWithAcme (some pngLogoFile)).2
        = (if lm1StateWithAcme.logos.any (fun logo => logo.name == pngLogoFile.name) then []
           else [Effect.uploadLogoRequest pngLogoFile])
    ∧ (LM1.handleFileSelect lm1StateWithAcme (some pngLogoFile)).1.confirmReplace
        = (if lm1StateWithAcme.logos.any (fun logo => logo.name == pngLogoFile.name) then
             some (pngLogoFile, pngLogoFile.name)
           else lm1StateWithAcme.confirmReplace) :=
  confirmReplace_on_duplicate lm1StateWithAcme pngLogoFile (by decide) (by decide)

end CardsTrade
